import Mathlib

/-!
Shallow embedding of the bevy-tetris-workshop game core (src/main.rs).

Modelling conventions:
* `f32` values are modelled exactly over `ℚ`; the game's coordinate math only
  uses halves and small integers, so no rounding behaviour is lost.
* Bevy `Entity` handles are modelled as `Nat`.
* The `HashSet<Entity>` block registry is modelled as a `List Entity`
  (the code only iterates it; order is irrelevant to every property proved here).
* Bevy `Commands` (deferred entity spawning/despawning) is modelled as an
  explicit log: a fresh-id counter, the list of blocks spawned by `spawn_block`
  (with their physics positions), a list of other spawned entities
  (camera, floor), and the list of despawned entities.
* The ECS queries (`Query<&mut RigidBodyForces>`,
  `Query<(Entity, &RigidBodyActivation, &RigidBodyPosition)>`) are modelled as
  partial maps `Entity → Option _`; a `none` result models the query failing
  for that entity (`get`/`get_mut` returning `Err`).
* Randomness (`TetrominoKind::random`) is externalized: functions that draw a
  random kind in the source take the drawn kind as an explicit parameter, and
  `TetrominoKind.ofRand` is the embedding of the `gen_range(0..7)` match.
* A Rust panic (the `unwrap()` in `spawn_block`) is modelled by returning
  `none` from an `Option`-valued function.
-/

namespace Tetris

/-- Bevy entity handle, modelled as a natural number id. -/
abbrev Entity := Nat

/-- Type for the discrete coordinate systems: `(column, row)` / `(x, y)`. -/
abbrev IVector := Int × Int

/-- `const BLOCK_PX_SIZE: f32 = 30.0`. -/
def BLOCK_PX_SIZE : ℚ := 30

/-- `const FLOOR_BLOCK_HEIGHT: f32 = 2.0` (in block-size units). -/
def FLOOR_BLOCK_HEIGHT : ℚ := 2

/-- `const BLOCK_LINEAR_DAMPING: f32 = 1.0`. -/
def BLOCK_LINEAR_DAMPING : ℚ := 1

/-- `const MOVEMENT_FORCE: f32 = 20.0`. -/
def MOVEMENT_FORCE : ℚ := 20

/-- `const TORQUE: f32 = 20.0` (unused by the systems below, as in the source). -/
def TORQUE : ℚ := 20

/-- The `Game` Bevy resource: session state.
`current_tetromino_blocks` is a `HashSet<Entity>` in the source, modelled as a
list; `current_tetromino_joints` is a `Vec<Entity>`. The material handle
`Handle<ColorMaterial>` is modelled as an opaque `Nat` id. -/
structure Game where
  n_lanes : Nat
  n_rows : Nat
  block_color : Option Nat
  current_tetromino_blocks : List Entity
  current_tetromino_joints : List Entity
  camera : Option Entity
  deriving DecidableEq

/-- `impl Default for Game`. -/
def Game.default : Game :=
  { n_lanes := 10
    n_rows := 20
    block_color := none
    current_tetromino_blocks := []
    current_tetromino_joints := []
    camera := none }

/-- `Game::floor_y`: the y position of the floor, in physics coordinates. -/
def Game.floor_y (g : Game) : ℚ :=
  -(g.n_rows : ℚ) * (1/2)

/-- `Game::left_edge_x`: the x position of the left edge of the board. -/
def Game.left_edge_x (g : Game) : ℚ :=
  -(g.n_lanes : ℚ) * (1/2)

/-- `Game::translate_to_board_center_top`: in the source this is the
`// Task: FIXME!` stub that returns its argument unchanged. -/
def Game.translate_to_board_center_top (_g : Game) (cr : IVector) : IVector :=
  (cr.1, cr.2)

/-- `Game::board_to_physics`: translate from board coordinates to physics
coordinates. -/
def Game.board_to_physics (g : Game) (cr : IVector) : ℚ × ℚ :=
  (g.left_edge_x + (cr.1 : ℚ) + 1/2, g.floor_y + (cr.2 : ℚ) + 1/2)

/-- `enum TetrominoKind`. -/
inductive TetrominoKind
  | I
  | O
  | T
  | J
  | L
  | S
  | Z
  deriving DecidableEq

/-- `TetrominoKind::random`, with the `gen_range(0..7)` draw externalized as
the argument `n`. -/
def TetrominoKind.ofRand (n : Nat) : TetrominoKind :=
  match n with
  | 0 => .I
  | 1 => .O
  | 2 => .T
  | 3 => .J
  | 4 => .L
  | 5 => .S
  | _ => .Z

/-- `struct TetrominoLayout`: all tetrominos consist of 4 blocks (fixed-size
array), the number of joints is variable. -/
structure TetrominoLayout where
  coords : Fin 4 → IVector
  joints : List (Nat × Nat)

/-- `TetrominoKind::layout`: in the source every kind returns the same fixed
layout. -/
def TetrominoKind.layout (_k : TetrominoKind) : TetrominoLayout :=
  { coords := ![(0, 0), (1, 0), (2, 0), (1, -1)]
    joints := [(0, 1), (1, 2), (1, 3)] }

/-- A block entity spawned by `spawn_block`, with its physics position
(the sprite, damping, collider and sync components attached in the source
carry no data that the verified properties depend on; the position is the
one piece of per-block construction data the coordinate claims are about). -/
structure SpawnedBlock where
  id : Entity
  pos : ℚ × ℚ
  deriving DecidableEq

/-- Model of Bevy `Commands`: a deferred spawn/despawn log plus a fresh-id
counter for newly spawned entities. -/
structure Commands where
  next_id : Entity
  spawned_blocks : List SpawnedBlock
  spawned_other : List Entity
  despawned : List Entity
  deriving DecidableEq

/-- `fn spawn_block`: computes the physics position of the block via
`board_to_physics ∘ translate_to_board_center_top`, unwraps the session's
block-color handle (`none` models the panic when the handle is missing), and
spawns one block entity, returning its id. The `kind` parameter is unused in
the source as well. -/
def spawn_block (cmds : Commands) (game : Game) (_kind : TetrominoKind)
    (tetromino_coord : IVector) : Option (Entity × Commands) :=
  let pos := game.board_to_physics (game.translate_to_board_center_top tetromino_coord)
  match game.block_color with
  | none => none
  | some _ =>
    let e := cmds.next_id
    some (e, { cmds with
                next_id := e + 1
                spawned_blocks := cmds.spawned_blocks ++ [⟨e, pos⟩] })

/-- `fn spawn_tetromino`, with the random kind externalized as `kind`.
As in the source: only the first coordinate's block is spawned (the joint
loop is commented out), and the `game` session state is not modified —
no registry registration happens. -/
def spawn_tetromino (cmds : Commands) (game : Game) (kind : TetrominoKind) :
    Option (Commands × Game) :=
  let layout := kind.layout
  match spawn_block cmds game kind (layout.coords 0) with
  | none => none
  | some (_block_entity, cmds2) => some (cmds2, game)

/-- `fn setup_board`: spawns the single static floor entity (its sprite,
rigid-body and collider descriptors carry no data used by the claims). -/
def setup_board (cmds : Commands) (_game : Game) : Commands :=
  { cmds with
      next_id := cmds.next_id + 1
      spawned_other := cmds.spawned_other ++ [cmds.next_id] }

/-- `fn setup_game`, with the random kind of the initial tetromino
externalized. Mirrors the source order: assign `block_color` (the handle
returned by `materials.add`, modelled as handle `0`), spawn the camera,
set up the board, then spawn the initial tetromino. The `rapier_config.scale`
assignment touches only the external physics resource and is elided. -/
def setup_game (cmds : Commands) (game : Game) (kind : TetrominoKind) :
    Option (Commands × Game) :=
  let game1 := { game with block_color := some 0 }
  let camera_id := cmds.next_id
  let cmds1 := { cmds with
                  next_id := cmds.next_id + 1
                  spawned_other := cmds.spawned_other ++ [camera_id] }
  let game2 := { game1 with camera := some camera_id }
  let cmds2 := setup_board cmds1 game2
  spawn_tetromino cmds2 game2 kind

/-- Per-frame input state: the two keys the game samples
(`input.pressed(KeyCode::Right)`, `input.pressed(KeyCode::Left)`). -/
structure InputState where
  right_pressed : Bool
  left_pressed : Bool

/-- `let movement = pressed(Right) as i8 - pressed(Left) as i8`. -/
def movement_of (input : InputState) : Int :=
  (if input.right_pressed then 1 else 0) - (if input.left_pressed then 1 else 0)

/-- A force accumulator value (`RigidBodyForces::force`), a 2d vector. -/
abbrev Force := ℚ × ℚ

/-- The forces query `Query<&mut RigidBodyForces>` as a partial map from
entities to their force accumulator. -/
abbrev ForcesQuery := Entity → Option Force

/-- One iteration of the loop body of `tetromino_movement` for the block
entity `e`: if `forces_query.get_mut(e)` succeeds and the movement direction
is non-zero, overwrite that entity's force with
`(movement * MOVEMENT_FORCE, 0)`. -/
def apply_movement_force (m : Int) (fs : ForcesQuery) (e : Entity) : ForcesQuery :=
  match fs e with
  | none => fs
  | some _ =>
    if m ≠ 0 then Function.update fs e (some ((m : ℚ) * MOVEMENT_FORCE, 0)) else fs

/-- `fn tetromino_movement` (system): folds the loop body over the current
piece's block registry. -/
def tetromino_movement (input : InputState) (game : Game) (forces : ForcesQuery) :
    ForcesQuery :=
  game.current_tetromino_blocks.foldl (apply_movement_force (movement_of input)) forces

/-- `RigidBodyActivation`: the physics-engine activation state of a body;
only the `sleeping` flag is read by the game. -/
structure RigidBodyActivation where
  sleeping : Bool
  deriving DecidableEq

/-- The sleep-detection query
`Query<(Entity, &RigidBodyActivation, &RigidBodyPosition)>` as a partial map;
`none` models the entity missing from the physics world. -/
abbrev World := Entity → Option RigidBodyActivation

/-- The closure inside `tetromino_sleep_detection`:
`block_query.get(e).ok().map(|(_, activation, _)| activation.sleeping).unwrap_or(false)`. -/
def block_sleeping_query (world : World) (e : Entity) : Bool :=
  ((world e).map RigidBodyActivation.sleeping).getD false

/-- `fn tetromino_sleep_detection` (system), with the random kind of the
respawned tetromino externalized. If every registered block reports sleeping
(`List.all`, vacuously true on an empty registry), despawn every joint entity
in the joint list and invoke `spawn_tetromino`. -/
def tetromino_sleep_detection (cmds : Commands) (game : Game) (world : World)
    (kind : TetrominoKind) : Option (Commands × Game) :=
  let all_blocks_sleeping := game.current_tetromino_blocks.all (block_sleeping_query world)
  if all_blocks_sleeping then
    let cmds2 := { cmds with despawned := cmds.despawned ++ game.current_tetromino_joints }
    spawn_tetromino cmds2 game kind
  else
    some (cmds, game)

/-- Names of the system functions defined in the source. -/
inductive SystemId
  | setup_game
  | tetromino_movement
  | tetromino_sleep_detection
  deriving DecidableEq

/-- The startup systems `fn main` registers with the engine
(`add_startup_system(setup_game.system())`). -/
def main_startup_systems : List SystemId :=
  [SystemId.setup_game]

/-- The per-frame game systems `fn main` registers with the engine: the only
`add_system` call is `add_system(tetromino_movement.system())`. The
`DefaultPlugins` and `RapierPhysicsPlugin` additions register only external
engine systems, none of the game's own functions. -/
def main_added_systems : List SystemId :=
  [SystemId.tetromino_movement]

/-! ## Helper lemmas -/

/-- With zero movement direction the loop body writes nothing. -/
theorem apply_movement_force_zero (fs : ForcesQuery) (e : Entity) :
    apply_movement_force 0 fs e = fs := by
  unfold apply_movement_force
  cases fs e <;> simp

/-- With zero movement direction the whole loop writes nothing. -/
theorem foldl_apply_movement_force_zero (l : List Entity) (fs : ForcesQuery) :
    l.foldl (apply_movement_force 0) fs = fs := by
  induction l generalizing fs with
  | nil => rfl
  | cons a t ih => rw [List.foldl_cons, apply_movement_force_zero, ih]

/-- The loop body for block `a` leaves every other entity's force unchanged. -/
theorem apply_movement_force_ne (m : Int) (fs : ForcesQuery) (a e : Entity)
    (h : e ≠ a) : apply_movement_force m fs a e = fs e := by
  unfold apply_movement_force
  cases fs a with
  | none => rfl
  | some f =>
    by_cases hm : m ≠ 0 <;> simp [hm, Function.update_noteq h]

/-- The loop body never changes which entities the forces query covers. -/
theorem apply_movement_force_isSome (m : Int) (fs : ForcesQuery) (a e : Entity) :
    ((apply_movement_force m fs a) e).isSome = (fs e).isSome := by
  by_cases he : e = a
  · subst he
    unfold apply_movement_force
    cases h : fs e with
    | none => simp [h]
    | some f =>
      by_cases hm : m ≠ 0 <;> simp [hm, Function.update_same, h]
  · rw [apply_movement_force_ne m fs a e he]

/-- Entities outside the registry list keep their force across the loop. -/
theorem foldl_apply_movement_force_not_mem (m : Int) (l : List Entity)
    (fs : ForcesQuery) (e : Entity) (h : e ∉ l) :
    l.foldl (apply_movement_force m) fs e = fs e := by
  induction l generalizing fs with
  | nil => rfl
  | cons a t ih =>
    rw [List.mem_cons, not_or] at h
    rw [List.foldl_cons, ih _ h.2, apply_movement_force_ne m fs a e h.1]

/-- With non-zero movement direction, every registered block covered by the
forces query ends the loop with force `(m * MOVEMENT_FORCE, 0)`. -/
theorem foldl_apply_movement_force_mem (m : Int) (hm : m ≠ 0) (l : List Entity)
    (fs : ForcesQuery) (e : Entity) (h : e ∈ l) (hs : (fs e).isSome = true) :
    l.foldl (apply_movement_force m) fs e = some ((m : ℚ) * MOVEMENT_FORCE, 0) := by
  induction l generalizing fs with
  | nil => cases h
  | cons a t ih =>
    rw [List.foldl_cons]
    by_cases het : e ∈ t
    · exact ih (apply_movement_force m fs a) het
        (by rw [apply_movement_force_isSome]; exact hs)
    · have hea : e = a := by
        rcases List.mem_cons.mp h with h1 | h2
        · exact h1
        · exact absurd h2 het
      subst hea
      rw [foldl_apply_movement_force_not_mem m t _ e het]
      obtain ⟨f, hf⟩ := Option.isSome_iff_exists.mp hs
      unfold apply_movement_force
      simp [hf, hm, Function.update_same]

/-- The physics position `spawn_tetromino` gives its single block: the first
layout coordinate, run through `translate_to_board_center_top` and
`board_to_physics`. -/
def spawn_position (game : Game) (kind : TetrominoKind) : ℚ × ℚ :=
  game.board_to_physics (game.translate_to_board_center_top (kind.layout.coords 0))

/-- When the block-color handle is assigned, `spawn_tetromino` spawns exactly
one block (with a fresh id, at `spawn_position`) and leaves the session state
unchanged. -/
theorem spawn_tetromino_eq (cmds : Commands) (game : Game) (kind : TetrominoKind)
    (hdl : Nat) (hc : game.block_color = some hdl) :
    spawn_tetromino cmds game kind =
      some ({ cmds with
                next_id := cmds.next_id + 1
                spawned_blocks := cmds.spawned_blocks ++
                  [⟨cmds.next_id, spawn_position game kind⟩] }, game) := by
  unfold spawn_tetromino spawn_block spawn_position
  rw [hc]

/-- When the block-color handle is missing, `spawn_tetromino` hits the
`unwrap` panic. -/
theorem spawn_tetromino_none (cmds : Commands) (game : Game) (kind : TetrominoKind)
    (hc : game.block_color = none) :
    spawn_tetromino cmds game kind = none := by
  unfold spawn_tetromino spawn_block
  rw [hc]

/-- If all registered blocks report sleeping, the detector despawns the joint
list and behaves as `spawn_tetromino` on the despawn-extended command log. -/
theorem sleep_detection_all_sleeping (cmds : Commands) (game : Game)
    (world : World) (kind : TetrominoKind)
    (hall : game.current_tetromino_blocks.all (block_sleeping_query world) = true)
    (hdl : Nat) (hc : game.block_color = some hdl) :
    tetromino_sleep_detection cmds game world kind =
      some ({ cmds with
                next_id := cmds.next_id + 1
                spawned_blocks := cmds.spawned_blocks ++
                  [⟨cmds.next_id, spawn_position game kind⟩]
                despawned := cmds.despawned ++ game.current_tetromino_joints }, game) := by
  unfold tetromino_sleep_detection
  rw [hall]
  simp only [if_true]
  rw [spawn_tetromino_eq _ game kind hdl hc]

/-- If some registered block does not report sleeping, the detector does
nothing. -/
theorem sleep_detection_not_all_sleeping (cmds : Commands) (game : Game)
    (world : World) (kind : TetrominoKind) (e : Entity)
    (he : e ∈ game.current_tetromino_blocks)
    (hq : block_sleeping_query world e = false) :
    tetromino_sleep_detection cmds game world kind = some (cmds, game) := by
  have hall : game.current_tetromino_blocks.all (block_sleeping_query world) = false := by
    cases hb : game.current_tetromino_blocks.all (block_sleeping_query world) with
    | false => rfl
    | true =>
      have := List.all_eq_true.mp hb e he
      rw [hq] at this
      cases this
  unfold tetromino_sleep_detection
  rw [hall]
  simp

/-! ## Claim theorems -/

/-- C1 counterexample: at the concrete session state with an empty block
registry, joint list `[5]` and the color handle assigned, one invocation of
`tetromino_sleep_detection` despawns joint `5` and spawns a new block
(entity `0`) — contradicting the claim that on an empty registry the detector
despawns no joints and does not invoke the piece spawner. The `List.all` over
the empty registry is vacuously true, so the transition fires. -/
theorem empty_registry_fires_cex :
    (tetromino_sleep_detection ⟨0, [], [], []⟩
        { Game.default with current_tetromino_joints := [5], block_color := some 0 }
        (fun _ => none) TetrominoKind.I).map
      (fun r => (r.1.despawned, r.1.spawned_blocks.map SpawnedBlock.id)) =
      some ([5], [0]) ∧ ([5] : List Entity) ≠ [] :=
  ⟨rfl, by decide⟩

/-- C1 (amended): for every session state whose current-piece block registry
is empty and whose block-color handle is assigned, one invocation of the rest
detector DOES fire the rest transition — the all-sleeping check is vacuously
true on the empty registry — despawning every joint entity in the joint list
and invoking the piece spawner exactly once (one block spawned); the `Game`
session state itself is returned unchanged, since the spawner registers
nothing. -/
theorem empty_registry_fires (cmds : Commands) (game : Game) (world : World)
    (kind : TetrominoKind) (hdl : Nat)
    (hb : game.current_tetromino_blocks = [])
    (hc : game.block_color = some hdl) :
    tetromino_sleep_detection cmds game world kind =
      some ({ cmds with
                next_id := cmds.next_id + 1
                spawned_blocks := cmds.spawned_blocks ++
                  [⟨cmds.next_id, spawn_position game kind⟩]
                despawned := cmds.despawned ++ game.current_tetromino_joints }, game) := by
  apply sleep_detection_all_sleeping cmds game world kind _ hdl hc
  rw [hb]
  rfl

/-- Witness for the amended C1 theorem at a concrete session state. -/
theorem empty_registry_fires_witness :
    tetromino_sleep_detection ⟨0, [], [], []⟩
        { Game.default with current_tetromino_joints := [5], block_color := some 0 }
        (fun _ => none) TetrominoKind.I =
      some (⟨1,
             [⟨0, spawn_position
                   { Game.default with current_tetromino_joints := [5], block_color := some 0 }
                   TetrominoKind.I⟩],
             [],
             [5]⟩,
            { Game.default with current_tetromino_joints := [5], block_color := some 0 }) :=
  empty_registry_fires ⟨0, [], [], []⟩ _ _ _ 0 rfl rfl

/-- C2 counterexample: the rest detector is not among the per-frame systems
registered with the engine in `main`, while the input controller is —
contradicting the claim that the frame pipeline includes the rest-detection
step alongside the input controller. -/
theorem rest_detector_not_registered_cex :
    SystemId.tetromino_sleep_detection ∉ main_added_systems ∧
    SystemId.tetromino_movement ∈ main_added_systems := by
  decide

/-- C2 (amended): the per-frame pipeline registered in `main` contains the
input controller (`tetromino_movement`) as its only game system;
`tetromino_sleep_detection` is registered neither as a frame system nor as a
startup system, so no rest-detection step runs on any simulation frame. -/
theorem main_frame_pipeline :
    main_added_systems = [SystemId.tetromino_movement] ∧
    main_startup_systems = [SystemId.setup_game] ∧
    SystemId.tetromino_sleep_detection ∉ main_added_systems ∧
    SystemId.tetromino_sleep_detection ∉ main_startup_systems := by
  decide

/-- C3 counterexample: starting from a session whose registry holds the
previous piece's block `3`, `spawn_tetromino` (fresh id `10`) leaves the
registry at `[3]`: the newly spawned entity `10` is not registered and the
stale entry is not replaced — contradicting the claim that the registry
afterwards contains exactly the entities spawned by that invocation. -/
theorem spawn_registry_unchanged_cex :
    (spawn_tetromino ⟨10, [], [], []⟩
        { Game.default with current_tetromino_blocks := [3], block_color := some 0 }
        TetrominoKind.O).map
      (fun r => (r.2.current_tetromino_blocks, r.1.spawned_blocks.map SpawnedBlock.id)) =
      some ([3], [10]) ∧ (10 : Entity) ∉ ([3] : List Entity) :=
  ⟨rfl, by decide⟩

/-- C3 (amended): `spawn_tetromino` registers nothing: it spawns exactly one
block entity (only the first layout coordinate; the joint loop is commented
out) and returns the session state unchanged, so the previous piece's
registry entries stay in place and the new entity is not recorded. -/
theorem spawn_tetromino_registry_unchanged (cmds : Commands) (game : Game)
    (kind : TetrominoKind) (hdl : Nat) (hc : game.block_color = some hdl) :
    spawn_tetromino cmds game kind =
      some ({ cmds with
                next_id := cmds.next_id + 1
                spawned_blocks := cmds.spawned_blocks ++
                  [⟨cmds.next_id, spawn_position game kind⟩] }, game) :=
  spawn_tetromino_eq cmds game kind hdl hc

/-- Witness for the amended C3 theorem at a concrete session state. -/
theorem spawn_tetromino_registry_unchanged_witness :
    spawn_tetromino ⟨10, [], [], []⟩
        { Game.default with current_tetromino_blocks := [3], block_color := some 0 }
        TetrominoKind.O =
      some (⟨11,
             [⟨10, spawn_position
                    { Game.default with current_tetromino_blocks := [3], block_color := some 0 }
                    TetrominoKind.O⟩],
             [],
             []⟩,
            { Game.default with current_tetromino_blocks := [3], block_color := some 0 }) :=
  spawn_tetromino_registry_unchanged ⟨10, [], [], []⟩ _ _ 0 rfl

/-- C4 counterexample: at a concrete non-empty registry (`[1]`, sleeping)
with joint list `[7]`, after the all-sleeping transition the session state's
joint list is still `[7]` — it is not cleared before (or after) the respawn,
contradicting the claim that the joint list is fully cleared before the new
piece's registry is installed. -/
theorem joint_list_not_cleared_cex :
    (tetromino_sleep_detection ⟨0, [], [], []⟩
        { Game.default with
            current_tetromino_blocks := [1]
            current_tetromino_joints := [7]
            block_color := some 0 }
        (fun e => if e = 1 then some ⟨true⟩ else none) TetrominoKind.T).map
      (fun r => r.2.current_tetromino_joints) = some [7] ∧
    ([7] : List Entity) ≠ [] :=
  ⟨rfl, by decide⟩

/-- C4 (amended): for every non-empty current-piece registry, if at least one
registered block reports not-sleeping, one invocation of the rest detector
performs no transition; if every registered block reports sleeping (and the
block-color handle is assigned), exactly one respawn occurs in that
invocation — one new block is spawned — and every joint entity in the joint
list is despawned; however, the session state's joint list is NOT cleared and
no new registry is installed: the `Game` value is returned unchanged. -/
theorem sleep_detection_nonempty_transition (cmds : Commands) (game : Game)
    (world : World) (kind : TetrominoKind) :
    (∀ e, e ∈ game.current_tetromino_blocks → block_sleeping_query world e = false →
        tetromino_sleep_detection cmds game world kind = some (cmds, game)) ∧
    (game.current_tetromino_blocks ≠ [] →
      (∀ e ∈ game.current_tetromino_blocks, block_sleeping_query world e = true) →
      ∀ hdl, game.block_color = some hdl →
        tetromino_sleep_detection cmds game world kind =
          some ({ cmds with
                    next_id := cmds.next_id + 1
                    spawned_blocks := cmds.spawned_blocks ++
                      [⟨cmds.next_id, spawn_position game kind⟩]
                    despawned := cmds.despawned ++ game.current_tetromino_joints }, game)) := by
  constructor
  · intro e he hq
    exact sleep_detection_not_all_sleeping cmds game world kind e he hq
  · intro _ hs hdl hc
    apply sleep_detection_all_sleeping cmds game world kind _ hdl hc
    rw [List.all_eq_true]
    intro x hx
    exact hs x hx

/-- Witness for the amended C4 theorem: a registered block that is not
sleeping (here: missing from the world) blocks the transition. -/
theorem sleep_detection_nonempty_transition_witness :
    tetromino_sleep_detection ⟨0, [], [], []⟩
        { Game.default with current_tetromino_blocks := [1] }
        (fun _ => none) TetrominoKind.I =
      some (⟨0, [], [], []⟩, { Game.default with current_tetromino_blocks := [1] }) :=
  (sleep_detection_nonempty_transition ⟨0, [], [], []⟩
      { Game.default with current_tetromino_blocks := [1] }
      (fun _ => none) TetrominoKind.I).1 1 (by decide) rfl

/-- C5: a block entity in the registry that is missing from the physics world
is treated by the rest detector as not sleeping (`unwrap_or(false)`), so its
presence in the registry blocks the rest transition: the detector performs no
despawn and no respawn, returning commands and session state unchanged. -/
theorem missing_block_blocks_transition (cmds : Commands) (game : Game)
    (world : World) (kind : TetrominoKind) (e : Entity)
    (he : e ∈ game.current_tetromino_blocks) (hw : world e = none) :
    block_sleeping_query world e = false ∧
    tetromino_sleep_detection cmds game world kind = some (cmds, game) := by
  have hq : block_sleeping_query world e = false := by
    unfold block_sleeping_query
    rw [hw]
    rfl
  exact ⟨hq, sleep_detection_not_all_sleeping cmds game world kind e he hq⟩

/-- Witness for the C5 theorem at a concrete session state. -/
theorem missing_block_blocks_transition_witness :
    block_sleeping_query (fun _ => none) 2 = false ∧
    tetromino_sleep_detection ⟨0, [], [], []⟩
        { Game.default with
            current_tetromino_blocks := [2]
            current_tetromino_joints := [9] }
        (fun _ => none) TetrominoKind.Z =
      some (⟨0, [], [], []⟩,
            { Game.default with
                current_tetromino_blocks := [2]
                current_tetromino_joints := [9] }) :=
  missing_block_blocks_transition ⟨0, [], [], []⟩ _ _ TetrominoKind.Z 2 (by decide) rfl

/-- C6: for every frame input state and every registered block entity covered
by the forces query: right-held and left-unheld sets that block's force to
`(+MOVEMENT_FORCE, 0)`; left-held and right-unheld sets it to
`(-MOVEMENT_FORCE, 0)`; if both or neither are held, the system performs no
force update at all this frame — the whole forces query is returned
unchanged, so previously-set values persist. -/
theorem tetromino_movement_force (input : InputState) (game : Game)
    (forces : ForcesQuery) (e : Entity)
    (he : e ∈ game.current_tetromino_blocks)
    (hs : (forces e).isSome = true) :
    (input.right_pressed = true → input.left_pressed = false →
        tetromino_movement input game forces e = some (MOVEMENT_FORCE, 0)) ∧
    (input.left_pressed = true → input.right_pressed = false →
        tetromino_movement input game forces e = some (-MOVEMENT_FORCE, 0)) ∧
    (input.right_pressed = input.left_pressed →
        tetromino_movement input game forces = forces) := by
  refine ⟨?_, ?_, ?_⟩
  · intro hr hl
    have hm : movement_of input = 1 := by simp [movement_of, hr, hl]
    unfold tetromino_movement
    rw [hm, foldl_apply_movement_force_mem 1 (by decide) _ forces e he hs]
    norm_num
  · intro hl hr
    have hm : movement_of input = -1 := by simp [movement_of, hr, hl]
    unfold tetromino_movement
    rw [hm, foldl_apply_movement_force_mem (-1) (by decide) _ forces e he hs]
    norm_num
  · intro hrl
    have hm : movement_of input = 0 := by
      unfold movement_of
      rw [hrl]
      cases input.left_pressed <;> simp
    unfold tetromino_movement
    rw [hm, foldl_apply_movement_force_zero]

/-- Witness for the C6 theorem at a concrete input and session state. -/
theorem tetromino_movement_force_witness :
    tetromino_movement ⟨true, false⟩
        { Game.default with current_tetromino_blocks := [2] }
        (fun e => if e = 2 then some (0, 0) else none) 2 =
      some (MOVEMENT_FORCE, 0) :=
  (tetromino_movement_force ⟨true, false⟩
      { Game.default with current_tetromino_blocks := [2] }
      (fun e => if e = 2 then some (0, 0) else none) 2 (by decide) rfl).1 rfl rfl

/-- C7: `board_to_physics(col, row) = (-n_lanes/2 + col + 0.5,
-n_rows/2 + row + 0.5)`; in particular `board_to_physics(0,0) =
(-n_lanes/2 + 0.5, -n_rows/2 + 0.5)`, with `floor_y() = -n_rows * 0.5` and
`left_edge_x() = -n_lanes * 0.5`. -/
theorem board_to_physics_formula (g : Game) (col row : Int) :
    g.board_to_physics (col, row) =
      (-(g.n_lanes : ℚ)/2 + (col : ℚ) + 1/2, -(g.n_rows : ℚ)/2 + (row : ℚ) + 1/2) ∧
    g.board_to_physics (0, 0) = (-(g.n_lanes : ℚ)/2 + 1/2, -(g.n_rows : ℚ)/2 + 1/2) ∧
    g.floor_y = -(g.n_rows : ℚ) * (1/2) ∧
    g.left_edge_x = -(g.n_lanes : ℚ) * (1/2) := by
  refine ⟨?_, ?_, rfl, rfl⟩
  · unfold Game.board_to_physics Game.left_edge_x Game.floor_y
    simp only [Prod.mk.injEq]
    constructor <;> ring
  · unfold Game.board_to_physics Game.left_edge_x Game.floor_y
    simp only [Prod.mk.injEq]
    constructor <;> push_cast <;> ring

/-- C8: for positive board dimensions, `board_to_physics` composed with the
inverse mapping `(x, y) ↦ (x - left_edge_x - 0.5, y - floor_y - 0.5)`
recovers the original discrete coordinate exactly. -/
theorem board_to_physics_roundtrip (g : Game) (col row : Int)
    (_hL : 0 < g.n_lanes) (_hR : 0 < g.n_rows) :
    (g.board_to_physics (col, row)).1 - g.left_edge_x - 1/2 = (col : ℚ) ∧
    (g.board_to_physics (col, row)).2 - g.floor_y - 1/2 = (row : ℚ) := by
  constructor
  · show g.left_edge_x + (col : ℚ) + 1/2 - g.left_edge_x - 1/2 = (col : ℚ)
    ring
  · show g.floor_y + (row : ℚ) + 1/2 - g.floor_y - 1/2 = (row : ℚ)
    ring

/-- Witness for the C8 theorem at the default board dimensions. -/
theorem board_to_physics_roundtrip_witness :
    0 < Game.default.n_lanes ∧ 0 < Game.default.n_rows ∧
    (Game.default.board_to_physics (3, 4)).1 - Game.default.left_edge_x - 1/2 = (3 : ℚ) :=
  ⟨by decide, by decide,
   (board_to_physics_roundtrip Game.default 3 4 (by decide) (by decide)).1⟩

/-- C9: `translate_to_board_center_top` returns its argument unchanged — the
function is currently the identity on its coordinate (the `Task: FIXME!`
stub). -/
theorem translate_to_board_center_top_id (g : Game) (v : IVector) :
    g.translate_to_board_center_top v = v :=
  rfl

/-- C10: the unwrap of the block-color handle inside `spawn_block` panics
exactly when the handle is still unassigned; with the handle assigned it
never panics; and `setup_game` assigns the handle before its
`spawn_tetromino` call, so starting from any session state (even one with no
handle) the startup sequence never reaches the panic branch. -/
theorem spawn_block_unwrap_safety :
    (∀ cmds game kind coord, game.block_color = none →
        spawn_block cmds game kind coord = none) ∧
    (∀ cmds game kind coord hdl, game.block_color = some hdl →
        (spawn_block cmds game kind coord).isSome = true) ∧
    (∀ cmds game kind, (setup_game cmds game kind).isSome = true) := by
  refine ⟨?_, ?_, ?_⟩
  · intro cmds game kind coord hc
    unfold spawn_block
    rw [hc]
  · intro cmds game kind coord hdl hc
    unfold spawn_block
    rw [hc]
    rfl
  · intro cmds game kind
    simp only [setup_game]
    rw [spawn_tetromino_eq _ _ kind 0 rfl]
    rfl

/-- Witness for the C10 theorem: the panic branch at a handle-less state, the
no-panic branch with the handle assigned, and the startup sequence from the
default (handle-less) session state. -/
theorem spawn_block_unwrap_safety_witness :
    spawn_block ⟨0, [], [], []⟩ Game.default TetrominoKind.I (0, 0) = none ∧
    (setup_game ⟨0, [], [], []⟩ Game.default TetrominoKind.I).isSome = true :=
  ⟨spawn_block_unwrap_safety.1 ⟨0, [], [], []⟩ Game.default TetrominoKind.I (0, 0) rfl,
   spawn_block_unwrap_safety.2.2 ⟨0, [], [], []⟩ Game.default TetrominoKind.I⟩

end Tetris
